import Mathlib

/-!
Verification of the SaberTooth widget-tree layout core against its
natural-language specification.

The repository sources available are `src/widgets/Slider.js` and the test
suite `test/spec/widgets/BaseWidget-spec.js`.  `BaseWidget.js` itself is
not among the sources, so the invalidation/validation machinery
(`routeInvalidation`, `recursiveRouteUpdate`, the bypass counter, the clip
graphic and the theme/disabled cascade) is modelled from the spec, with
the observable behaviour of `routeInvalidation` pinned down by the
repository's own test assertions.  The slider arithmetic is translated
directly from `Slider.js`; JavaScript numbers are modelled by `ℚ`.
-/

namespace SaberTooth

/-- Modelled from the spec: the per-axis size-policy classification
(`SizePolicy` with variants `FixedPolicy` / `ExpandingPolicy`,
`layoutSys/sizePolicies/*.js` is not among the sources).  `isFixed`
reports whether the widget's size on the policy's axis is intrinsic. -/
inductive SizePolicy where
  | fixed
  | expanding
deriving DecidableEq, Repr

/-- Classification used by invalidation routing: `fixed` reports `true`. -/
def SizePolicy.isFixed : SizePolicy → Bool
  | .fixed => true
  | .expanding => false

/-- One widget of an ancestor chain: its two size policies and its
`valid` flag.  The chain is represented bottom-up: index 0 is the widget
an operation is called on, the last element is the root. -/
structure ChainWidget where
  hPolicy : SizePolicy
  vPolicy : SizePolicy
  valid : Bool
deriving DecidableEq, Repr

/-- Default element for out-of-range `List.getD` reads. -/
def dfltW : ChainWidget := ⟨SizePolicy.expanding, SizePolicy.expanding, true⟩

/-- Sets `valid := false` on one widget (the body of `invalidate()`). -/
def invalidateW (w : ChainWidget) : ChainWidget := { w with valid := false }

/-- Sets `valid := true` on one widget (the flag part of `validate()`). -/
def validateW (w : ChainWidget) : ChainWidget := { w with valid := true }

/-- Modelled from the spec: `BaseWidget.routeInvalidation()` is not among
the sources.  The upward walk of spec §4.3 is reconstructed with the
marking discipline fixed by the repository's test assertions
(`BaseWidget-spec.js`, `#routeInvalidation()`): the walk starts at the
calling widget (head of the chain); a widget with a fixed policy on
either axis stops the walk and its *parent* alone is marked invalid; a
widget with no parent (the root) marks *itself* invalid; every other
widget on the chain is left untouched.  The tests assert exactly this:
after `widget2.routeInvalidation()` the caller and all widgets other
than the single stopping target remain `valid`. -/
def routeInvalidation : List ChainWidget → List ChainWidget
  | [] => []
  | [w] => [invalidateW w]
  | w :: p :: rest =>
      if w.hPolicy.isFixed || w.vPolicy.isFixed then
        w :: invalidateW p :: rest
      else
        w :: routeInvalidation (p :: rest)

/-- Index (into the bottom-up chain) of the one widget that
`routeInvalidation` marks invalid: the parent of the first widget with a
fixed policy on either axis, or the root when no non-root widget on the
chain is fixed. -/
def routeTarget : List ChainWidget → Nat
  | [] => 0
  | [_] => 0
  | w :: p :: rest =>
      if w.hPolicy.isFixed || w.vPolicy.isFixed then 1
      else routeTarget (p :: rest) + 1

/-- Concrete chain refuting C1: caller `W` (index 0) has a fixed
horizontal policy, its parent is expanding on both axes, the root
(index 2) has a fixed horizontal policy, everything valid. -/
def ceChainA : List ChainWidget :=
  [⟨.fixed, .expanding, true⟩, ⟨.expanding, .expanding, true⟩, ⟨.fixed, .expanding, true⟩]

/-- Concrete witness chain for the amended C1. -/
def wChainA : List ChainWidget :=
  [⟨.expanding, .fixed, true⟩, ⟨.expanding, .expanding, true⟩, ⟨.fixed, .fixed, true⟩]

/-- Concrete chain refuting C2: a three-widget chain, every policy
expanding, everything valid. -/
def ceChainB : List ChainWidget :=
  [⟨.expanding, .expanding, true⟩, ⟨.expanding, .expanding, true⟩,
   ⟨.expanding, .expanding, true⟩]

/-- Concrete witness chain for the amended C2: four widgets, all
non-root widgets expanding on both axes. -/
def wChainB : List ChainWidget :=
  [⟨.expanding, .expanding, true⟩, ⟨.expanding, .expanding, true⟩,
   ⟨.expanding, .expanding, true⟩, ⟨.fixed, .fixed, true⟩]

/-- Modelled from the spec: `BaseWidget.update()` restricted to an
ancestor chain (`BaseWidget.js` is not among the sources).  `updateAt c i`
recomputes the widget at chain index `i`: it applies the layout (no
geometry is tracked beyond the `valid` flag), runs `validate()` —
setting `valid := true` — and then cascades `update()` into the chain
child (index `i - 1`) when that child is expanding on some axis, exactly
as spec §4.3 prescribes (`expanding children only`).  The second
component lists the chain indices whose `update()` ran. -/
def updateAt : List ChainWidget → Nat → List ChainWidget × List Nat
  | c, 0 => (c.set 0 (validateW (c.getD 0 dfltW)), [0])
  | c, i + 1 =>
      if (!(c.getD i dfltW).hPolicy.isFixed || !(c.getD i dfltW).vPolicy.isFixed) then
        ((updateAt (c.set (i + 1) (validateW (c.getD (i + 1) dfltW))) i).1,
         (i + 1) :: (updateAt (c.set (i + 1) (validateW (c.getD (i + 1) dfltW))) i).2)
      else (c.set (i + 1) (validateW (c.getD (i + 1) dfltW)), [i + 1])

/-- Modelled from the spec: `BaseWidget.recursiveRouteUpdate()` on an
ancestor chain (`BaseWidget.js` is not among the sources).  Starting at
chain index `i`, if the widget has no parent or its parent is already
valid, `update()` runs on the widget itself; otherwise the parent's
`recursiveRouteUpdate()` runs first and this widget's own `update()`
proceeds once it returns (spec §4.3).  Parent-validity checks read the
pre-call state, as in the source protocol where the climb happens before
any update.  The fuel argument (always called with the chain length)
only bounds the structural recursion. -/
def rRUFrom : List ChainWidget → Nat → Nat → List ChainWidget × List Nat
  | c, i, 0 => updateAt c i
  | c, i, fuel + 1 =>
      if i + 1 < c.length ∧ (c.getD (i + 1) dfltW).valid = false then
        ((updateAt (rRUFrom c (i + 1) fuel).1 i).1,
         (rRUFrom c (i + 1) fuel).2 ++ (updateAt (rRUFrom c (i + 1) fuel).1 i).2)
      else updateAt c i

/-- Entry point: `recursiveRouteUpdate()` called on the bottom widget of the chain. -/
def rRU (c : List ChainWidget) : List ChainWidget × List Nat := rRUFrom c 0 c.length

/-- Index of the widget the climb of `recursiveRouteUpdate` stops at when
started at index `i`: the top of the contiguous run of invalid parents
above `i` (the highest dirty ancestor of spec §4.3). -/
def dTopFrom : List ChainWidget → Nat → Nat → Nat
  | _, i, 0 => i
  | c, i, fuel + 1 =>
      if i + 1 < c.length ∧ (c.getD (i + 1) dfltW).valid = false then
        dTopFrom c (i + 1) fuel
      else i

/-- Highest dirty ancestor above the bottom widget of the chain. -/
def dTop (c : List ChainWidget) : Nat := dTopFrom c 0 c.length

/-- Concrete chain for the C3 witness: the caller is valid, its parent
and grandparent are invalid, the great-grandparent (root) is valid, so
the climb stops at index 2. -/
def wChainC : List ChainWidget :=
  [⟨.expanding, .expanding, true⟩, ⟨.fixed, .expanding, false⟩,
   ⟨.expanding, .expanding, false⟩, ⟨.expanding, .expanding, true⟩]

/-- Modelled from the spec: the orientation code `ST.HORIZONTAL`
(`const.js` is not among the sources; the spec only requires the two
orientation values to be distinct configuration codes). -/
def HORIZONTAL : Nat := 0

/-- Modelled from the spec: the orientation code `ST.VERTICAL`. -/
def VERTICAL : Nat := 1

/-- Modelled from the spec: the alignment codes of `Alignment.js` (not
among the sources); `Slider.js` uses `left`, `center`, `top` and
`middle`. -/
inductive Alignment where
  | left
  | center
  | right
  | top
  | middle
  | bottom
deriving DecidableEq, Repr

/-- Default `settings.slider.track.shortSize` registered by `Slider.js`. -/
def trackShortSize : ℚ := 5

/-- State of a `Slider` (from `src/widgets/Slider.js`) together with the
parts of its `track` and `button` child widgets that the slider methods
read and write.  JavaScript numbers are modelled by `ℚ`.
`buttonBypassDepth` / `buttonValid` model the button's
`beginBypassUpdate()` / `endBypassUpdate()` counter and `valid` flag
(`BaseWidget.js` is not among the sources; modelled from spec §4.3). -/
structure Slider where
  orientation : Nat
  minValue : ℚ
  maxValue : ℚ
  _value : ℚ
  oldValue : ℚ
  valueCB : Option (ℚ → ℚ)
  trackWidth : ℚ
  trackHeight : ℚ
  buttonX : ℚ
  buttonY : ℚ
  buttonWidth : ℚ
  buttonHeight : ℚ
  buttonBypassDepth : Nat
  buttonValid : Bool
  width : ℚ
  height : ℚ
  minWidth : ℚ
  minHeight : ℚ
  maxWidth : ℚ
  maxHeight : ℚ
  hAlign : Alignment
  vAlign : Alignment
  trackHPolicy : SizePolicy
  trackVPolicy : SizePolicy

/-- The raw, pre-callback slider value of `get value` in `Slider.js`:
the button's position scaled into the `[minValue, maxValue]` range,
using the x axis for a horizontal slider and the y axis otherwise. -/
def rawValue (s : Slider) : ℚ :=
  if s.orientation = HORIZONTAL then
    ((s.maxValue - s.minValue) / (s.trackWidth - s.buttonWidth)) * s.buttonX + s.minValue
  else
    ((s.maxValue - s.minValue) / (s.trackHeight - s.buttonHeight)) * s.buttonY + s.minValue

/-- Getter `get value` of `Slider.js`: computes the raw value from the button's
position, stores it in `_value`, and returns it — transformed by
`valueCB` when that callback is set.  Returns the pair
`(returned value, post-read slider state)`. -/
def getValue (s : Slider) : ℚ × Slider :=
  match s.valueCB with
  | some cb => (cb (rawValue s), { s with _value := rawValue s })
  | none => (rawValue s, { s with _value := rawValue s })

/-- Modelled from the spec: `this.button.x = pos; this.button.applyPosition()`
(`BaseWidget.js` is not among the sources).  A position mutation flips
the button's `valid` flag unless the button's bypass counter is
positive (spec §4.3, bypass invariant). -/
def applyButtonX (x : ℚ) (s : Slider) : Slider :=
  if s.buttonBypassDepth = 0 then { s with buttonX := x, buttonValid := false }
  else { s with buttonX := x }

/-- Modelled from the spec: `this.button.y = pos; this.button.applyPosition()`
with the same bypass rule as `applyButtonX`. -/
def applyButtonY (y : ℚ) (s : Slider) : Slider :=
  if s.buttonBypassDepth = 0 then { s with buttonY := y, buttonValid := false }
  else { s with buttonY := y }

/-- Modelled from the spec: `this.button.beginBypassUpdate()` increments
the button's bypass-depth counter. -/
def beginBypassUpdateBtn (s : Slider) : Slider :=
  { s with buttonBypassDepth := s.buttonBypassDepth + 1 }

/-- Modelled from the spec: `this.button.endBypassUpdate()` decrements
the button's bypass-depth counter. -/
def endBypassUpdateBtn (s : Slider) : Slider :=
  { s with buttonBypassDepth := s.buttonBypassDepth - 1 }

/-- Setter `set value` of `Slider.js`: clamps the assigned value into
`[minValue, maxValue]`, stores it in `oldValue` and `_value`, and — with
the button's invalidation bypassed — positions the button at the
corresponding fraction of the track. -/
def setValue (v : ℚ) (s : Slider) : Slider :=
  let val := min (max v s.minValue) s.maxValue
  let s1 := beginBypassUpdateBtn { s with oldValue := val, _value := val }
  let s2 :=
    if s1.orientation = HORIZONTAL then
      applyButtonX
        (((val - s1.minValue) / (s1.maxValue - s1.minValue))
          * (s1.trackWidth - s1.buttonWidth)) s1
    else
      applyButtonY
        (((val - s1.minValue) / (s1.maxValue - s1.minValue))
          * (s1.trackHeight - s1.buttonHeight)) s1
  endBypassUpdateBtn s2

/-- Setter `set orientation` of `Slider.js`: accepts exactly `HORIZONTAL` and
`VERTICAL`, reconfiguring the min/max bounds, the track geometry, the
layout alignment and the track policies accordingly; any other value
throws (`Except.error` with the source's message). -/
def setOrientation (v : Nat) (s : Slider) : Except String Slider :=
  if v = HORIZONTAL then
    Except.ok
      { s with
        orientation := v,
        minHeight := s.buttonHeight, minWidth := s.buttonWidth * 2,
        maxHeight := s.buttonHeight, maxWidth := 10000,
        trackWidth := s.width, trackHeight := trackShortSize,
        hAlign := Alignment.left, vAlign := Alignment.middle,
        trackHPolicy := SizePolicy.expanding, trackVPolicy := SizePolicy.fixed }
  else if v = VERTICAL then
    Except.ok
      { s with
        orientation := v,
        minHeight := s.buttonHeight * 2, minWidth := s.buttonWidth,
        maxHeight := 10000, maxWidth := s.buttonWidth,
        trackWidth := trackShortSize, trackHeight := s.height,
        hAlign := Alignment.center, vAlign := Alignment.top,
        trackVPolicy := SizePolicy.expanding, trackHPolicy := SizePolicy.fixed }
  else
    Except.error "Slider.orientation must be either ST.HORIZONTAL or UI.VERTICAL"

/-- A horizontal slider in the configuration of spec §8's concrete
scenario: content track width 392, button width 20, `minValue` 0,
`maxValue` 100, no transform callback. -/
def slider392 : Slider :=
  { orientation := HORIZONTAL, minValue := 0, maxValue := 100,
    _value := 0, oldValue := 0, valueCB := none,
    trackWidth := 392, trackHeight := 5,
    buttonX := 0, buttonY := 0, buttonWidth := 20, buttonHeight := 20,
    buttonBypassDepth := 0, buttonValid := true,
    width := 400, height := 30,
    minWidth := 40, minHeight := 20, maxWidth := 10000, maxHeight := 20,
    hAlign := Alignment.left, vAlign := Alignment.middle,
    trackHPolicy := SizePolicy.expanding, trackVPolicy := SizePolicy.fixed }

/-- Slider state refuting C5: the button sits past the end of the track
(`buttonX = 100` on a track of width 100 with a button of width 20). -/
def ceSlider : Slider :=
  { slider392 with maxValue := 1, trackWidth := 100, buttonX := 100 }

/-- Slider state for C10: a transform callback is set and the stored
`_value` (0) disagrees with the button-derived raw value (25). -/
def ceSlider10 : Slider :=
  { slider392 with buttonX := 93, valueCB := some (fun x => x + 1) }

/-- Modelled from the spec: the part of a `BaseWidget` that the bypass
protocol of spec §4.3 touches (`BaseWidget.js` is not among the
sources): the `valid` flag, the `bypassDepth` counter and one mutable
geometry field standing for the mutated property. -/
structure BypassWidget where
  valid : Bool
  bypassDepth : Nat
  size : ℚ
deriving DecidableEq

/-- Modelled from the spec: `beginBypassUpdate()` increments the
counter. -/
def beginBypassUpdate (w : BypassWidget) : BypassWidget :=
  { w with bypassDepth := w.bypassDepth + 1 }

/-- Modelled from the spec: `endBypassUpdate()` decrements the
counter. -/
def endBypassUpdate (w : BypassWidget) : BypassWidget :=
  { w with bypassDepth := w.bypassDepth - 1 }

/-- Modelled from the spec: a direct property setter (spec §4.3: size,
padding, position) — it stores the new value and calls `invalidate()`
exactly when `bypassDepth == 0`. -/
def setSize (v : ℚ) (w : BypassWidget) : BypassWidget :=
  if w.bypassDepth = 0 then { w with size := v, valid := false }
  else { w with size := v }

/-- Modelled from the spec: the geometry read and written by
`BaseWidget._updateClipGraphic()` (`BaseWidget.js` is not among the
sources): the widget's size, its four-sided padding and its clip
graphic's rectangle and `renderable` flag. -/
structure ClipWidget where
  width : ℚ
  height : ℚ
  padTop : ℚ
  padBottom : ℚ
  padLeft : ℚ
  padRight : ℚ
  clipWidth : ℚ
  clipHeight : ℚ
  clipX : ℚ
  clipY : ℚ
  clipRenderable : Bool
deriving DecidableEq

/-- Modelled from the spec: `_updateClipGraphic()` sets the clip
graphic to the widget's content box — full size minus the padding on
each side, positioned at the leading padding — and always makes the
clip graphic itself non-renderable (spec §4.3). -/
def updateClipGraphic (w : ClipWidget) : ClipWidget :=
  { w with clipWidth := w.width - (w.padLeft + w.padRight),
           clipHeight := w.height - (w.padTop + w.padBottom),
           clipX := w.padLeft, clipY := w.padTop,
           clipRenderable := false }

/-- Widget matching the repository's `_updateClipGraphic` tests: size
400 × 400 with the default padding 4 on every side. -/
def clip400 : ClipWidget :=
  { width := 400, height := 400,
    padTop := 4, padBottom := 4, padLeft := 4, padRight := 4,
    clipWidth := 0, clipHeight := 0, clipX := 0, clipY := 0,
    clipRenderable := true }

/-- A widget tree node: its theme (modelled as a reference id), its
`disabled` flag and its ordered children. -/
inductive WTree where
  | node (theme : Nat) (disabled : Bool) (children : List WTree)

mutual

/-- Modelled from the spec: the `theme` setter cascades the same theme
reference to every descendant (spec §4.3; `BaseWidget.js` is not among
the sources). -/
def setTheme (th : Nat) : WTree → WTree
  | .node _ d cs => .node th d (setThemeList th cs)

/-- Cascade of `setTheme` over a child list. -/
def setThemeList (th : Nat) : List WTree → List WTree
  | [] => []
  | c :: cs => setTheme th c :: setThemeList th cs

end

mutual

/-- Modelled from the spec: the `disabled` setter cascades the value
unconditionally to every descendant (spec §4.3). -/
def setDisabled (b : Bool) : WTree → WTree
  | .node th _ cs => .node th b (setDisabledList b cs)

/-- Cascade of `setDisabled` over a child list. -/
def setDisabledList (b : Bool) : List WTree → List WTree
  | [] => []
  | c :: cs => setDisabled b c :: setDisabledList b cs

end

mutual

/-- Every node of the tree, at every depth, carries theme `th`. -/
def allTheme (th : Nat) : WTree → Bool
  | .node t _ cs => (t == th) && allThemeList th cs

/-- Conjunction of `allTheme` over a child list. -/
def allThemeList (th : Nat) : List WTree → Bool
  | [] => true
  | c :: cs => allTheme th c && allThemeList th cs

end

mutual

/-- Every node of the tree, at every depth, carries disabled flag `b`. -/
def allDisabled (b : Bool) : WTree → Bool
  | .node _ d cs => (d == b) && allDisabledList b cs

/-- Conjunction of `allDisabled` over a child list. -/
def allDisabledList (b : Bool) : List WTree → Bool
  | [] => true
  | c :: cs => allDisabled b c && allDisabledList b cs

end

/-- Concrete widget for the C4 witness: valid, depth 0. -/
def wBypass : BypassWidget := ⟨true, 0, 0⟩

theorem getD_set_ne {α : Type} (l : List α) (a d : α) :
    ∀ (i j : Nat), i ≠ j → (l.set i a).getD j d = l.getD j d := by
  induction l with
  | nil => intro i j _; rfl
  | cons x xs ih =>
      intro i j hij
      cases i with
      | zero =>
          cases j with
          | zero => exact absurd rfl hij
          | succ j => simp [List.set]
      | succ i =>
          cases j with
          | zero => simp [List.set]
          | succ j =>
              simp only [List.set, List.getD_cons_succ]
              exact ih i j (fun h => hij (by rw [h]))

theorem getD_set_self {α : Type} (l : List α) (a d : α) :
    ∀ (i : Nat), i < l.length → (l.set i a).getD i d = a := by
  induction l with
  | nil => intro i h; exact absurd h (by simp)
  | cons x xs ih =>
      intro i h
      cases i with
      | zero => rfl
      | succ i =>
          simp only [List.set, List.getD_cons_succ]
          exact ih i (by simpa using h)

theorem routeInvalidation_length :
    ∀ (c : List ChainWidget), (routeInvalidation c).length = c.length
  | [] => rfl
  | [_] => rfl
  | w :: p :: rest => by
      cases hb : (w.hPolicy.isFixed || w.vPolicy.isFixed) with
      | true => simp [routeInvalidation, hb]
      | false =>
          simp only [routeInvalidation, hb, Bool.false_eq_true, if_false, List.length_cons]
          rw [routeInvalidation_length (p :: rest)]
          simp

theorem routeTarget_lt :
    ∀ (c : List ChainWidget), c ≠ [] → routeTarget c < c.length
  | [_], _ => by simp [routeTarget]
  | w :: p :: rest, _ => by
      cases hb : (w.hPolicy.isFixed || w.vPolicy.isFixed) with
      | true => simp [routeTarget, hb]
      | false =>
          simp only [routeTarget, hb, Bool.false_eq_true, if_false, List.length_cons]
          have := routeTarget_lt (p :: rest) (by simp)
          simp only [List.length_cons] at this
          omega

theorem routeInvalidation_getD :
    ∀ (c : List ChainWidget) (j : Nat), j < c.length →
      (routeInvalidation c).getD j dfltW =
        if j = routeTarget c then invalidateW (c.getD j dfltW) else c.getD j dfltW
  | [], j, hj => by simp at hj
  | [w], j, hj => by
      have hj1 : j < 1 := by simpa using hj
      have hj0 : j = 0 := Nat.lt_one_iff.mp hj1
      subst hj0
      simp [routeInvalidation, routeTarget]
  | w :: p :: rest, j, hj => by
      cases hb : (w.hPolicy.isFixed || w.vPolicy.isFixed) with
      | true =>
          simp only [routeInvalidation, routeTarget, hb, if_true]
          match j with
          | 0 => simp
          | 1 => simp
          | (k + 2) =>
              simp only [List.getD_cons_succ]
              have hk : ¬(k + 2 = 1) := by omega
              simp [hk]
      | false =>
          simp only [routeInvalidation, routeTarget, hb, Bool.false_eq_true, if_false]
          match j with
          | 0 => simp
          | (k + 1) =>
              simp only [List.getD_cons_succ]
              have hk : k < (p :: rest).length := by
                simpa using Nat.lt_of_succ_lt_succ hj
              rw [routeInvalidation_getD (p :: rest) k hk]
              by_cases hkt : k = routeTarget (p :: rest)
              · simp [hkt]
              · have hne : ¬(k + 1 = routeTarget (p :: rest) + 1) := by omega
                simp [hkt, hne]

/-- Chain mirroring the repository test `should invalidate the highest
parent`: the caller has a box (non-fixed) horizontal policy, the root a
fixed one; the middle widget's policies are arbitrary (the repository
never sets them).  The asserted outcome — only the root flips to
invalid — is independent of the middle widget's policies. -/
theorem routeInvalidation_matches_test_highestParent (p q : SizePolicy) :
    routeInvalidation
        [⟨.expanding, .expanding, true⟩, ⟨p, q, true⟩, ⟨.fixed, .expanding, true⟩]
      = [⟨.expanding, .expanding, true⟩, ⟨p, q, true⟩, ⟨.fixed, .expanding, false⟩] := by
  cases p <;> cases q <;> rfl

/-- Chain mirroring the repository test `should invalidate the first
parent with a fixed size policy`: the caller has a fixed horizontal
policy, so its parent alone flips to invalid, whatever the parent's own
policies are; the fixed-policy root stays valid. -/
theorem routeInvalidation_matches_test_fixedPolicy (p q : SizePolicy) :
    routeInvalidation
        [⟨.fixed, .expanding, true⟩, ⟨p, q, true⟩, ⟨.fixed, .expanding, true⟩]
      = [⟨.fixed, .expanding, true⟩, ⟨p, q, false⟩, ⟨.fixed, .expanding, true⟩] := rfl

/-- C1 fails on the code: in `ceChainA` the nearest fixed-policy ancestor
of the caller is the root (index 2: the index-1 ancestor is expanding on
both axes, the index-2 ancestor is fixed), yet after `routeInvalidation`
both the caller and that ancestor are still valid, where the claim
demands both be invalid. -/
theorem C1_counterexample :
    ((ceChainA.getD 1 dfltW).hPolicy.isFixed = false
      ∧ (ceChainA.getD 1 dfltW).vPolicy.isFixed = false
      ∧ (ceChainA.getD 2 dfltW).hPolicy.isFixed = true)
    ∧ ((routeInvalidation ceChainA).getD 0 dfltW).valid = true
    ∧ ((routeInvalidation ceChainA).getD 2 dfltW).valid = true := by decide

theorem routeInvalidation_exact (c : List ChainWidget) (h : c ≠ []) :
    ((routeInvalidation c).getD (routeTarget c) dfltW).valid = false
    ∧ ∀ j, j < c.length → j ≠ routeTarget c →
        (routeInvalidation c).getD j dfltW = c.getD j dfltW := by
  constructor
  · rw [routeInvalidation_getD c (routeTarget c) (routeTarget_lt c h)]
    simp [invalidateW]
  · intro j hj hne
    rw [routeInvalidation_getD c j hj]
    simp [hne]

/-- C1 (amended): `routeInvalidation` marks exactly one widget invalid —
the widget at `routeTarget` (the parent of the first fixed-policy widget
on the chain starting at the caller itself, or the root when no non-root
chain widget is fixed) — and leaves every other widget of the chain
completely unchanged. -/
theorem routeInvalidation_marks_exactly_target (c : List ChainWidget) (h : c ≠ []) :
    ((routeInvalidation c).getD (routeTarget c) dfltW).valid = false
    ∧ ∀ j, j < c.length → j ≠ routeTarget c →
        (routeInvalidation c).getD j dfltW = c.getD j dfltW :=
  routeInvalidation_exact c h

/-- Witness for the amended C1 at `wChainA` (target is index 1, the
parent of the vertically-fixed caller; index 0 is untouched). -/
theorem C1_witness :
    ((routeInvalidation wChainA).getD (routeTarget wChainA) dfltW).valid = false
    ∧ (routeInvalidation wChainA).getD 0 dfltW = wChainA.getD 0 dfltW :=
  ⟨(routeInvalidation_marks_exactly_target wChainA (by decide)).1,
   (routeInvalidation_marks_exactly_target wChainA (by decide)).2 0 (by decide) (by decide)⟩

theorem routeTarget_of_no_fixed :
    ∀ (c : List ChainWidget), c ≠ [] →
      (∀ w ∈ c.dropLast, w.hPolicy.isFixed = false ∧ w.vPolicy.isFixed = false) →
      routeTarget c = c.length - 1
  | [_], _, _ => by simp [routeTarget]
  | w :: p :: rest, _, hnf => by
      have hw : w ∈ (w :: p :: rest).dropLast := by
        rw [List.dropLast_cons₂]
        exact List.mem_cons_self w _
      have hwf := hnf w hw
      have h : (w.hPolicy.isFixed || w.vPolicy.isFixed) = false := by
        rw [hwf.1, hwf.2]; rfl
      simp only [routeTarget, h, Bool.false_eq_true, if_false]
      have htail : ∀ x ∈ (p :: rest).dropLast,
          x.hPolicy.isFixed = false ∧ x.vPolicy.isFixed = false := by
        intro x hx
        exact hnf x (by rw [List.dropLast_cons₂]; exact List.mem_cons_of_mem w hx)
      rw [routeTarget_of_no_fixed (p :: rest) (by simp) htail]
      simp

/-- C2 fails on the code: in `ceChainB` no ancestor of the caller has a
fixed policy on any axis, yet after `routeInvalidation` the intermediate
ancestor (index 1) is still valid, where the claim demands every
ancestor up to the root be invalid. -/
theorem C2_counterexample :
    (∀ w ∈ ceChainB, w.hPolicy.isFixed = false ∧ w.vPolicy.isFixed = false)
    ∧ ((routeInvalidation ceChainB).getD 1 dfltW).valid = true := by decide

/-- C2 (amended): when no widget strictly below the root of the chain —
the caller included — has a fixed policy on either axis,
`routeInvalidation` marks the root invalid and leaves every widget below
the root completely unchanged. -/
theorem routeInvalidation_no_fixed_marks_root (c : List ChainWidget) (h : c ≠ [])
    (hnf : ∀ w ∈ c.dropLast, w.hPolicy.isFixed = false ∧ w.vPolicy.isFixed = false) :
    ((routeInvalidation c).getD (c.length - 1) dfltW).valid = false
    ∧ ∀ j, j < c.length - 1 → (routeInvalidation c).getD j dfltW = c.getD j dfltW := by
  have ht := routeTarget_of_no_fixed c h hnf
  constructor
  · rw [← ht]
    exact (routeInvalidation_exact c h).1
  · intro j hj
    exact (routeInvalidation_exact c h).2 j (by omega) (by omega)

/-- Witness for the amended C2 at `wChainB` (the root, index 3, flips to
invalid; index 1 is untouched). -/
theorem C2_witness :
    ((routeInvalidation wChainB).getD (wChainB.length - 1) dfltW).valid = false
    ∧ (routeInvalidation wChainB).getD 1 dfltW = wChainB.getD 1 dfltW :=
  ⟨(routeInvalidation_no_fixed_marks_root wChainB (by decide) (by decide)).1,
   (routeInvalidation_no_fixed_marks_root wChainB (by decide) (by decide)).2 1 (by decide)⟩

theorem updateAt_length :
    ∀ (c : List ChainWidget) (i : Nat), (updateAt c i).1.length = c.length
  | c, 0 => by simp [updateAt]
  | c, i + 1 => by
      simp only [updateAt]
      split
      · rw [updateAt_length _ i]
        simp
      · simp

theorem updateAt_getD_gt :
    ∀ (c : List ChainWidget) (i j : Nat), i < j →
      (updateAt c i).1.getD j dfltW = c.getD j dfltW
  | c, 0, j, hij => by
      simp only [updateAt]
      exact getD_set_ne c _ dfltW 0 j (by omega)
  | c, i + 1, j, hij => by
      simp only [updateAt]
      split
      · rw [updateAt_getD_gt _ i j (by omega)]
        exact getD_set_ne c _ dfltW (i + 1) j (by omega)
      · exact getD_set_ne c _ dfltW (i + 1) j (by omega)

theorem updateAt_valid_self :
    ∀ (c : List ChainWidget) (i : Nat), i < c.length →
      ((updateAt c i).1.getD i dfltW).valid = true
  | c, 0, hi => by
      simp only [updateAt]
      rw [getD_set_self c _ dfltW 0 hi]
      rfl
  | c, i + 1, hi => by
      simp only [updateAt]
      split
      · rw [updateAt_getD_gt _ i (i + 1) (by omega)]
        rw [getD_set_self c _ dfltW (i + 1) hi]
        rfl
      · rw [getD_set_self c _ dfltW (i + 1) hi]
        rfl

theorem updateAt_mem_self :
    ∀ (c : List ChainWidget) (i : Nat), i ∈ (updateAt c i).2
  | c, 0 => by simp [updateAt]
  | c, i + 1 => by
      simp only [updateAt]
      split
      · simp
      · simp

theorem rRUFrom_length :
    ∀ (fuel : Nat) (c : List ChainWidget) (i : Nat),
      (rRUFrom c i fuel).1.length = c.length
  | 0, c, i => updateAt_length c i
  | fuel + 1, c, i => by
      simp only [rRUFrom]
      split
      · rw [updateAt_length, rRUFrom_length fuel]
      · exact updateAt_length c i

theorem dTopFrom_lt :
    ∀ (fuel : Nat) (c : List ChainWidget) (i : Nat), i < c.length →
      dTopFrom c i fuel < c.length
  | 0, _, _, hi => hi
  | fuel + 1, c, i, hi => by
      simp only [dTopFrom]
      split
      · next h => exact dTopFrom_lt fuel c (i + 1) h.1
      · exact hi

theorem rRUFrom_valid :
    ∀ (fuel : Nat) (c : List ChainWidget) (i : Nat), i < c.length →
      ∀ j, i ≤ j → j ≤ dTopFrom c i fuel →
        ((rRUFrom c i fuel).1.getD j dfltW).valid = true
  | 0, c, i, hi, j, hij, hjt => by
      have hji : j = i := Nat.le_antisymm hjt hij
      subst hji
      exact updateAt_valid_self c j hi
  | fuel + 1, c, i, hi, j, hij, hjt => by
      simp only [rRUFrom]
      simp only [dTopFrom] at hjt
      split
      · next h =>
          rcases Nat.eq_or_lt_of_le hij with hji | hlt
          · rw [← hji]
            exact updateAt_valid_self _ i (by rw [rRUFrom_length]; exact hi)
          · rw [updateAt_getD_gt _ i j hlt]
            rw [if_pos h] at hjt
            exact rRUFrom_valid fuel c (i + 1) h.1 j hlt hjt
      · next h =>
          rw [if_neg h] at hjt
          have hji : j = i := Nat.le_antisymm hjt hij
          subst hji
          exact updateAt_valid_self c j hi

theorem rRUFrom_mem_dTop :
    ∀ (fuel : Nat) (c : List ChainWidget) (i : Nat),
      dTopFrom c i fuel ∈ (rRUFrom c i fuel).2
  | 0, c, i => updateAt_mem_self c i
  | fuel + 1, c, i => by
      simp only [rRUFrom, dTopFrom]
      split
      · exact List.mem_append_left _ (rRUFrom_mem_dTop fuel c (i + 1))
      · exact updateAt_mem_self c i

/-- C3: `recursiveRouteUpdate()` on the bottom widget of a chain runs
`update()` on that widget itself when it has no parent or its parent is
valid; in general it recurses into the parent first, and afterwards
`update()` has run at least on the highest dirty ancestor (`dTop`) and
every widget from that ancestor down to the caller is valid. -/
theorem recursiveRouteUpdate_spec (c : List ChainWidget) (h : c ≠ []) :
    ((c.length ≤ 1 ∨ (c.getD 1 dfltW).valid = true) → rRU c = updateAt c 0)
    ∧ dTop c ∈ (rRU c).2
    ∧ ∀ j, j ≤ dTop c → ((rRU c).1.getD j dfltW).valid = true := by
  have hlen : 0 < c.length := List.length_pos.mpr h
  refine ⟨?_, rRUFrom_mem_dTop c.length c 0, ?_⟩
  · intro hcase
    have hcond : ¬(0 + 1 < c.length ∧ (c.getD (0 + 1) dfltW).valid = false) := by
      rintro ⟨h1, h2⟩
      rcases hcase with h3 | h3
      · omega
      · rw [h3] at h2
        exact absurd h2 (by simp)
    obtain ⟨n, hn⟩ : ∃ n, c.length = n + 1 := ⟨c.length - 1, by omega⟩
    rw [rRU, hn]
    simp only [rRUFrom]
    rw [if_neg hcond]
  · intro j hj
    exact rRUFrom_valid c.length c 0 hlen j (Nat.zero_le j) hj

/-- Witness for C3 at `wChainC`: `update()` ran on the highest dirty
ancestor (index 2) and both it and the caller are valid afterwards. -/
theorem C3_witness :
    dTop wChainC ∈ (rRU wChainC).2
    ∧ ((rRU wChainC).1.getD 2 dfltW).valid = true
    ∧ ((rRU wChainC).1.getD 0 dfltW).valid = true :=
  ⟨(recursiveRouteUpdate_spec wChainC (by decide)).2.1,
   (recursiveRouteUpdate_spec wChainC (by decide)).2.2 2 (by decide),
   (recursiveRouteUpdate_spec wChainC (by decide)).2.2 0 (by decide)⟩

theorem setValue_eq_horizontal (v : ℚ) (s : Slider) (ho : s.orientation = HORIZONTAL) :
    setValue v s =
      { s with
        oldValue := min (max v s.minValue) s.maxValue,
        _value := min (max v s.minValue) s.maxValue,
        buttonX := ((min (max v s.minValue) s.maxValue - s.minValue)
          / (s.maxValue - s.minValue)) * (s.trackWidth - s.buttonWidth) } := by
  rw [setValue]
  simp [ho, beginBypassUpdateBtn, endBypassUpdateBtn, applyButtonX]

theorem setValue_eq_vertical (v : ℚ) (s : Slider) (ho : ¬s.orientation = HORIZONTAL) :
    setValue v s =
      { s with
        oldValue := min (max v s.minValue) s.maxValue,
        _value := min (max v s.minValue) s.maxValue,
        buttonY := ((min (max v s.minValue) s.maxValue - s.minValue)
          / (s.maxValue - s.minValue)) * (s.trackHeight - s.buttonHeight) } := by
  rw [setValue]
  simp [ho, beginBypassUpdateBtn, endBypassUpdateBtn, applyButtonY]

theorem rawValue_of_horizontal (s : Slider) (ho : s.orientation = HORIZONTAL) :
    rawValue s
      = ((s.maxValue - s.minValue) / (s.trackWidth - s.buttonWidth)) * s.buttonX
        + s.minValue := by
  simp [rawValue, ho]

theorem rawBound (mn mx x D : ℚ) (hmm : mn ≤ mx) (hD : 0 < D)
    (hx0 : 0 ≤ x) (hxD : x ≤ D) :
    mn ≤ (mx - mn) / D * x + mn ∧ (mx - mn) / D * x + mn ≤ mx := by
  have hq : 0 ≤ (mx - mn) / D := div_nonneg (sub_nonneg.mpr hmm) hD.le
  constructor
  · nlinarith [mul_nonneg hq hx0]
  · have h1 : (mx - mn) / D * x ≤ (mx - mn) / D * D :=
      mul_le_mul_of_nonneg_left hxD hq
    rw [div_mul_cancel₀ _ (ne_of_gt hD)] at h1
    linarith

/-- C4: a mutation applied while the bypass counter is positive never
flips `valid` to false; the same mutation at depth 0 does;
`beginBypassUpdate` / `endBypassUpdate` nest and invalidation resumes
once the depth is back to zero.  The last conjunct checks the concrete
pairing in `Slider.set value`, which leaves the button's `valid` flag
and bypass depth exactly as they were. -/
theorem bypass_invariant :
    (∀ (w : BypassWidget) (v : ℚ), 0 < w.bypassDepth → (setSize v w).valid = w.valid)
    ∧ (∀ (w : BypassWidget) (v : ℚ), w.bypassDepth = 0 → (setSize v w).valid = false)
    ∧ (∀ w : BypassWidget, endBypassUpdate (beginBypassUpdate w) = w)
    ∧ (∀ (w : BypassWidget) (v : ℚ), (setSize v (beginBypassUpdate w)).valid = w.valid)
    ∧ (∀ (w : BypassWidget) (v : ℚ), w.bypassDepth = 0 →
        (setSize v (endBypassUpdate (beginBypassUpdate w))).valid = false)
    ∧ (∀ (s : Slider) (v : ℚ),
        (setValue v s).buttonValid = s.buttonValid
        ∧ (setValue v s).buttonBypassDepth = s.buttonBypassDepth) := by
  refine ⟨?_, ?_, ?_, ?_, ?_, ?_⟩
  · intro w v h
    rw [setSize, if_neg (by omega)]
  · intro w v h
    rw [setSize, if_pos h]
  · intro w
    cases w
    simp [beginBypassUpdate, endBypassUpdate]
  · intro w v
    rw [setSize, if_neg (by simp [beginBypassUpdate])]
    simp [beginBypassUpdate]
  · intro w v h
    rw [setSize, if_pos (by simp [beginBypassUpdate, endBypassUpdate, h])]
  · intro s v
    by_cases ho : s.orientation = HORIZONTAL
    · rw [setValue_eq_horizontal v s ho]
      exact ⟨rfl, rfl⟩
    · rw [setValue_eq_vertical v s ho]
      exact ⟨rfl, rfl⟩

/-- Witness for C4 at `wBypass`: a size mutation under one
`beginBypassUpdate` keeps `valid`; at depth 0 it invalidates; one
`endBypassUpdate` restores the original widget. -/
theorem C4_witness :
    0 < (beginBypassUpdate wBypass).bypassDepth
    ∧ (setSize 7 (beginBypassUpdate wBypass)).valid = (beginBypassUpdate wBypass).valid
    ∧ wBypass.bypassDepth = 0
    ∧ (setSize 7 wBypass).valid = false
    ∧ endBypassUpdate (beginBypassUpdate wBypass) = wBypass :=
  ⟨by decide, bypass_invariant.1 (beginBypassUpdate wBypass) 7 (by decide), rfl,
   bypass_invariant.2.1 wBypass 7 rfl, bypass_invariant.2.2.1 wBypass⟩

/-- C5 fails on the code: with no transform callback and the button
placed past the end of the track (a state the public `button.x` field
admits), the `value` getter returns a result strictly above `maxValue`,
and the `_value` it stores is that same unclamped result — the getter
performs no clamping at all. -/
theorem C5_counterexample :
    ceSlider.valueCB = none
    ∧ ceSlider.maxValue < (getValue ceSlider).1
    ∧ ceSlider.maxValue < ((getValue ceSlider).2)._value := by
  refine ⟨rfl, ?_, ?_⟩ <;>
    norm_num [getValue, rawValue, ceSlider, slider392, HORIZONTAL]

/-- C5 (amended): the `value` *setter* always stores the range-clamped
pre-transform value (within `[minValue, maxValue]` whenever
`minValue ≤ maxValue`); the *getter* stores and returns the raw
position-derived value without clamping, and that value lies within
`[minValue, maxValue]` provided the button position lies within the
track. -/
theorem value_contract_amended :
    (∀ (s : Slider) (v : ℚ),
        (setValue v s)._value = min (max v s.minValue) s.maxValue
        ∧ (s.minValue ≤ s.maxValue →
            s.minValue ≤ (setValue v s)._value ∧ (setValue v s)._value ≤ s.maxValue))
    ∧ (∀ s : Slider, s.valueCB = none → s.orientation = HORIZONTAL →
        s.buttonWidth < s.trackWidth → 0 ≤ s.buttonX →
        s.buttonX ≤ s.trackWidth - s.buttonWidth → s.minValue ≤ s.maxValue →
        (getValue s).1 = rawValue s
        ∧ ((getValue s).2)._value = rawValue s
        ∧ s.minValue ≤ (getValue s).1 ∧ (getValue s).1 ≤ s.maxValue) := by
  constructor
  · intro s v
    have hv : (setValue v s)._value = min (max v s.minValue) s.maxValue := by
      by_cases ho : s.orientation = HORIZONTAL
      · rw [setValue_eq_horizontal v s ho]
      · rw [setValue_eq_vertical v s ho]
    refine ⟨hv, fun hmm => ⟨?_, ?_⟩⟩
    · rw [hv]
      exact le_min (le_trans (le_max_right v s.minValue) (le_refl _)) hmm
    · rw [hv]
      exact min_le_right _ _
  · intro s hcb ho htw hx0 hxD hmm
    have hget1 : (getValue s).1 = rawValue s := by simp [getValue, hcb]
    have hget2 : ((getValue s).2)._value = rawValue s := by simp [getValue, hcb]
    refine ⟨hget1, hget2, ?_, ?_⟩
    · rw [hget1, rawValue_of_horizontal s ho]
      exact (rawBound s.minValue s.maxValue s.buttonX (s.trackWidth - s.buttonWidth)
        hmm (sub_pos.mpr htw) hx0 hxD).1
    · rw [hget1, rawValue_of_horizontal s ho]
      exact (rawBound s.minValue s.maxValue s.buttonX (s.trackWidth - s.buttonWidth)
        hmm (sub_pos.mpr htw) hx0 hxD).2

/-- Witness for the amended C5 at `slider392`: assigning 150 stores the
clamp bound, and reading the untouched slider yields an in-range raw
value that is also what gets stored. -/
theorem C5_witness :
    (setValue 150 slider392)._value
      = min (max 150 slider392.minValue) slider392.maxValue
    ∧ (getValue slider392).1 = rawValue slider392
    ∧ ((getValue slider392).2)._value = rawValue slider392
    ∧ slider392.minValue ≤ (getValue slider392).1
    ∧ (getValue slider392).1 ≤ slider392.maxValue := by
  have h1 := (value_contract_amended.1 slider392 150).1
  have h2 := value_contract_amended.2 slider392 rfl rfl (by norm_num [slider392])
    (by norm_num [slider392]) (by norm_num [slider392]) (by norm_num [slider392])
  exact ⟨h1, h2.1, h2.2.1, h2.2.2.1, h2.2.2.2⟩

/-- C6: for a horizontal slider with no transform callback,
`minValue < maxValue` and `buttonWidth < trackWidth`, assigning an
in-range value `v` places the button at the fraction
`(v - minValue) / (maxValue - minValue)` of the usable track
`trackWidth - buttonWidth`, and reading `value` back returns exactly
`v` (the set-then-get round trip). -/
theorem setValue_getValue_roundtrip (s : Slider) (v : ℚ)
    (ho : s.orientation = HORIZONTAL) (hcb : s.valueCB = none)
    (hmm : s.minValue < s.maxValue) (htw : s.buttonWidth < s.trackWidth)
    (hv1 : s.minValue ≤ v) (hv2 : v ≤ s.maxValue) :
    (setValue v s).buttonX
      = ((v - s.minValue) / (s.maxValue - s.minValue))
        * (s.trackWidth - s.buttonWidth)
    ∧ (getValue (setValue v s)).1 = v := by
  have hclamp : min (max v s.minValue) s.maxValue = v := by
    rw [max_eq_left hv1, min_eq_left hv2]
  have hs := setValue_eq_horizontal v s ho
  rw [hclamp] at hs
  have hne1 : s.maxValue - s.minValue ≠ 0 := sub_ne_zero.mpr (ne_of_gt hmm)
  have hne2 : s.trackWidth - s.buttonWidth ≠ 0 := sub_ne_zero.mpr (ne_of_gt htw)
  constructor
  · rw [hs]
  · rw [hs]
    simp [getValue, hcb, rawValue, ho]
    field_simp
    ring

/-- Witness for C6 in the concrete scenario of spec §8: track width 392,
button width 20, range `[0, 100]`; assigning 50 puts the button at
`x = 186` and reading `value` back returns 50. -/
theorem C6_witness :
    (setValue 50 slider392).buttonX = 186
    ∧ (getValue (setValue 50 slider392)).1 = 50 := by
  have h := setValue_getValue_roundtrip slider392 50 rfl rfl
    (by norm_num [slider392]) (by norm_num [slider392])
    (by norm_num [slider392]) (by norm_num [slider392])
  refine ⟨?_, h.2⟩
  rw [h.1]
  norm_num [slider392]

/-- C7: for uniform padding `P` on all four sides, the recomputed clip
graphic has size `(width - 2P, height - 2P)`, sits at `(P, P)`, and is
never itself rendered. -/
theorem updateClipGraphic_spec (w : ClipWidget) (P : ℚ)
    (hT : w.padTop = P) (hB : w.padBottom = P)
    (hL : w.padLeft = P) (hR : w.padRight = P) :
    (updateClipGraphic w).clipWidth = w.width - 2 * P
    ∧ (updateClipGraphic w).clipHeight = w.height - 2 * P
    ∧ (updateClipGraphic w).clipX = P
    ∧ (updateClipGraphic w).clipY = P
    ∧ (updateClipGraphic w).clipRenderable = false := by
  refine ⟨?_, ?_, ?_, ?_, rfl⟩
  · show w.width - (w.padLeft + w.padRight) = w.width - 2 * P
    rw [hL, hR]; ring
  · show w.height - (w.padTop + w.padBottom) = w.height - 2 * P
    rw [hT, hB]; ring
  · exact hL
  · exact hT

/-- Witness for C7 at the repository-test geometry (400 × 400, padding
4): clip 392 × 392 at (4, 4), non-renderable. -/
theorem C7_witness :
    (updateClipGraphic clip400).clipWidth = 392
    ∧ (updateClipGraphic clip400).clipHeight = 392
    ∧ (updateClipGraphic clip400).clipX = 4
    ∧ (updateClipGraphic clip400).clipY = 4
    ∧ (updateClipGraphic clip400).clipRenderable = false := by
  have h := updateClipGraphic_spec clip400 4 rfl rfl rfl rfl
  refine ⟨?_, ?_, h.2.2.1, h.2.2.2.1, h.2.2.2.2⟩
  · rw [h.1]; norm_num [clip400]
  · rw [h.2.1]; norm_num [clip400]

/-- C8: assigning any orientation other than `HORIZONTAL` or `VERTICAL`
raises the source's invalid-argument error immediately — no state is
produced, nothing is coerced or defaulted. -/
theorem setOrientation_invalid_errors (s : Slider) (v : Nat)
    (h1 : v ≠ HORIZONTAL) (h2 : v ≠ VERTICAL) :
    setOrientation v s
      = Except.error
          "Slider.orientation must be either ST.HORIZONTAL or UI.VERTICAL" := by
  rw [setOrientation, if_neg h1, if_neg h2]

/-- Witness for C8: orientation code 7 is rejected on `slider392`. -/
theorem C8_witness :
    setOrientation 7 slider392
      = Except.error
          "Slider.orientation must be either ST.HORIZONTAL or UI.VERTICAL" :=
  setOrientation_invalid_errors slider392 7 (by decide) (by decide)

mutual

theorem allTheme_setTheme (th : Nat) :
    ∀ (t : WTree), allTheme th (setTheme th t) = true
  | .node t0 d cs => by
      rw [setTheme, allTheme]
      simp [allThemeList_setThemeList th cs]

theorem allThemeList_setThemeList (th : Nat) :
    ∀ (cs : List WTree), allThemeList th (setThemeList th cs) = true
  | [] => rfl
  | c :: cs => by
      rw [setThemeList, allThemeList]
      simp [allTheme_setTheme th c, allThemeList_setThemeList th cs]

end

mutual

theorem allDisabled_setDisabled (b : Bool) :
    ∀ (t : WTree), allDisabled b (setDisabled b t) = true
  | .node t0 d cs => by
      rw [setDisabled, allDisabled]
      simp [allDisabledList_setDisabledList b cs]

theorem allDisabledList_setDisabledList (b : Bool) :
    ∀ (cs : List WTree), allDisabledList b (setDisabledList b cs) = true
  | [] => rfl
  | c :: cs => by
      rw [setDisabledList, allDisabledList]
      simp [allDisabled_setDisabled b c, allDisabledList_setDisabledList b cs]

end

/-- C9: setting `theme` or `disabled` on a root propagates the identical
theme reference / disabled value to every node of the tree, at every
depth, with no per-widget escape. -/
theorem theme_disabled_cascade (th : Nat) (b : Bool) (t : WTree) :
    allTheme th (setTheme th t) = true ∧ allDisabled b (setDisabled b t) = true :=
  ⟨allTheme_setTheme th t, allDisabled_setDisabled b t⟩

/-- C10: reading `value` is not a pure read: the getter always
overwrites the stored `_value` with the raw position-derived value —
also when a transform callback is set, in which case only the returned
value is remapped.  The closed conjuncts exhibit this at `ceSlider10`,
whose stored `_value` (0) differs from the raw value (25) and whose
callback adds 1 to the returned value only. -/
theorem getValue_impure :
    (∀ s : Slider,
        ((getValue s).2)._value = rawValue s
        ∧ (getValue s).1 = (match s.valueCB with
            | some cb => cb (rawValue s)
            | none => rawValue s)
        ∧ ((getValue s).2).buttonX = s.buttonX)
    ∧ ((getValue ceSlider10).2)._value ≠ ceSlider10._value
    ∧ (getValue ceSlider10).1 = rawValue ceSlider10 + 1 := by
  refine ⟨?_, ?_, ?_⟩
  · intro s
    cases h : s.valueCB <;> simp [getValue, h]
  · norm_num [getValue, rawValue, ceSlider10, slider392, HORIZONTAL]
  · simp [getValue, ceSlider10, slider392]

end SaberTooth
